import Mathlib

/-!
Verification development for the divvun grammar-checker HTTP worker
(src/main.rs). The data model, request processing pipeline and response
normalization are shallowly embedded below; the external collaborators
(the pipeline engine of the divvun runtime, and the Accept-Language
parser living in that runtime crate) are modelled as parameters or,
where the spec pins their behaviour, from the spec's words.
-/

namespace DivvunWorker

/-- Numbers as represented by the serde JSON library: a non-negative
integer (stored as u64), a negative integer (stored as i64), or a
floating-point value. `as_u64` succeeds only on the first form, so the
float payload itself is irrelevant here and is left opaque. -/
inductive JNum where
  | posInt (n : Nat)
  | negInt (n : Int)
  | float
deriving DecidableEq, Repr

/-- JSON values (serde_json's Value). Objects are association lists of
fields; serde keeps keys unique, lookup returns the first match. -/
inductive Json where
  | null
  | bool (b : Bool)
  | num (n : JNum)
  | str (s : String)
  | arr (xs : List Json)
  | obj (fields : List (String × Json))

/-- `Value::get(key)`: field lookup on an object, `None` on any other
JSON shape. -/
def Json.get (j : Json) (key : String) : Option Json :=
  match j with
  | .obj fields => (fields.find? (fun f => f.1 = key)).map (fun f => f.2)
  | _ => none

/-- `Value::as_str`. -/
def Json.asStr : Json → Option String
  | .str s => some s
  | _ => none

/-- `Value::as_u64`: succeeds exactly on the non-negative-integer
number representation. -/
def Json.asU64 : Json → Option Nat
  | .num (.posInt n) => some n
  | _ => none

/-- `Value::as_array`. -/
def Json.asArray : Json → Option (List Json)
  | .arr xs => some xs
  | _ => none

/-- The canonical per-error response schema (`GramcheckErrResponse` in
src/main.rs). The u32 offset fields are Nats kept below 2^32 by the
`as u32` truncation performed in `decodeEntry`. -/
structure GramcheckErrResponse where
  error_text : String
  start_index : Nat
  end_index : Nat
  error_code : String
  description : String
  suggestions : List String
  title : String
deriving DecidableEq, Repr

/-- The canonical response schema (`GramcheckResponse` in src/main.rs). -/
structure GramcheckResponse where
  text : String
  errs : List GramcheckErrResponse
deriving DecidableEq, Repr

/-- The body of the `filter_map` closure in `process` (src/main.rs
lines 180-206): decode a single backend entry into a canonical error,
or drop it. Field accesses mirror the source: `form`, `beg`, `end`,
`err` and `msg`/`rep` must be present with the right shapes; `beg` and
`end` go through `as_u64` followed by an `as u32` truncation (modulo
2^32); `rep` keeps only string elements; the title is `msg[0]` (must be
a string); the description is `msg[1]` when it is a string, else "". -/
def decodeEntry (o : Json) : Option GramcheckErrResponse :=
  match (o.get "form").bind Json.asStr, (o.get "beg").bind Json.asU64,
        (o.get "end").bind Json.asU64, (o.get "err").bind Json.asStr,
        (o.get "msg").bind Json.asArray, (o.get "rep").bind Json.asArray with
  | some form, some beg, some end_, some err, some msg, some repArr =>
    match (msg.get? 0).bind Json.asStr with
    | some title =>
      some {
        error_text := form
        start_index := beg % 2 ^ 32
        end_index := end_ % 2 ^ 32
        error_code := err
        title := title
        description := ((msg.get? 1).bind Json.asStr).getD ""
        suggestions := repArr.filterMap Json.asStr
      }
    | none => none
  | _, _, _, _, _, _ => none

/-- The whole `filter_map`/`collect` over the backend's JSON array
(src/main.rs lines 178-207). -/
def decodeErrs (xs : List Json) : List GramcheckErrResponse :=
  xs.filterMap decodeEntry

/-! ## Locale resolution -/

/-- Split a character list on a separator character. -/
def splitOnChar (c : Char) : List Char → List (List Char)
  | [] => [[]]
  | x :: xs =>
    match splitOnChar c xs with
    | [] => if x = c then [[], []] else [[x]]
    | h :: t => if x = c then [] :: h :: t else (x :: h) :: t

/-- Strip leading and trailing whitespace from a character list. -/
def trimChars (l : List Char) : List Char :=
  ((l.dropWhile Char.isWhitespace).reverse.dropWhile Char.isWhitespace).reverse

/-- Read a decimal digit string as a number; `none` on empty or
non-digit input. -/
def digitsToNat : List Char → Option Nat
  | [] => none
  | l => l.foldl (fun acc c =>
      acc.bind (fun n => if c.isDigit then some (n * 10 + (c.toNat - 48)) else none))
      (some 0)

/-- Read a quality value such as `1`, `0.5` or `0.25` in thousandths
(so `0.5` is `500`); `none` if malformed. -/
def qToThousandths (l : List Char) : Option Nat :=
  match splitOnChar '.' l with
  | [i] => (digitsToNat i).map (fun n => n * 1000)
  | [i, f] =>
    (digitsToNat i).bind (fun n =>
      (digitsToNat (f.take 3)).map (fun m =>
        n * 1000 + m * 10 ^ (3 - (f.take 3).length)))
  | _ => none

/-- Read one `;`-separated parameter of a header item as a quality
weight: `q=<value>`. -/
def qParam (l : List Char) : Option Nat :=
  match l with
  | 'q' :: '=' :: rest => qToThousandths (trimChars rest)
  | _ => none

/-- Stable insertion into a weight-descending list: an element moves
ahead only of strictly lighter ones, so ties preserve order. -/
def insertByWeight (x : String × Nat) : List (String × Nat) → List (String × Nat)
  | [] => [x]
  | y :: ys => if x.2 ≤ y.2 then y :: insertByWeight x ys else x :: y :: ys

/-- Stable sort by descending weight. -/
def sortByWeightDesc : List (String × Nat) → List (String × Nat)
  | [] => []
  | x :: xs => insertByWeight x (sortByWeightDesc xs)

/-- Modelled from the spec: `parse_accept_language` is provided by the
external divvun runtime crate and is not part of this repository's
sources. Following section 4.1 of the spec, the header is parsed into a
sequence of (locale, weight) pairs ordered by descending weight, with
standard language-negotiation semantics: a `;q=` suffix gives the
weight (here in thousandths), the default weight is 1.0, ties preserve
header order, and a malformed item yields nothing rather than failing. -/
def parse_accept_language (s : String) : List (String × Nat) :=
  let items := (splitOnChar ',' s.toList).filterMap (fun item =>
    match splitOnChar ';' item with
    | [] => none
    | langPart :: params =>
      let lang := trimChars langPart
      if lang.isEmpty then none
      else
        let q := match params.findSome? (fun p => qParam (trimChars p)) with
          | some q => q
          | none => 1000
        some (String.mk lang, q))
  sortByWeightDesc items

/-- Locale resolution as inlined in `process` (src/main.rs lines
102-117): project the parsed header to locale identifiers, then append
the configured default language when it is not already present. -/
def resolveLocales (header : Option String) (lang : Option String) : List String :=
  let locales := match header with
    | some accept_lang => (parse_accept_language accept_lang).map (fun p => p.1)
    | none => []
  match lang with
  | some lg => if locales.contains lg then locales else locales ++ [lg]
  | none => locales

/-- Locale resolution as inlined in `preferences_get` (src/main.rs
lines 53-68), transcribed separately from `resolveLocales` because the
source duplicates the logic in the two handlers. -/
def preferencesLocales (header : Option String) (lang : Option String) : List String :=
  let locales := match header with
    | some accept_lang => (parse_accept_language accept_lang).map (fun p => p.1)
    | none => []
  match lang with
  | some lg => if locales.contains lg then locales else locales ++ [lg]
  | none => locales

/-! ## Request model and the processing pipeline -/

/-- The request body (`ProcessInput` in src/main.rs). -/
structure ProcessInput where
  text : String
  ignore : Option (List String)
  ignore_tags : Option (List String)
deriving DecidableEq, Repr

/-- The query parameters (`ProcessQuery` in src/main.rs). -/
structure ProcessQuery where
  encoding : Option String
deriving DecidableEq, Repr

/-- Rust's `str::trim`: strip leading and trailing whitespace. -/
def strTrim (s : String) : String :=
  String.mk (trimChars s.toList)

/-- The encoding selection of `process` (src/main.rs lines 93-100):
`some true` means utf-16, `some false` utf-8, `none` the bad-request
early return. -/
def encodingOf : Option String → Option Bool
  | none => some true
  | some enc =>
    if enc = "utf-16" then some true
    else if enc = "utf-8" then some false
    else none

/-- The ignore constraint put into the suggest configuration
(src/main.rs lines 125-131): prefer `ignore` over the deprecated
`ignore_tags`; a present-but-empty list contributes nothing. -/
def ignoreField (body : ProcessInput) : Option (List String) :=
  match body.ignore.or body.ignore_tags with
  | some ignore_list => if ignore_list.isEmpty then none else some ignore_list
  | none => none

/-- The suggest configuration built by `process` (src/main.rs lines
120-135): the resolved locales, the encoding flag, and the optional
ignore constraint. -/
structure SuggestConfig where
  locales : List String
  utf16 : Bool
  ignore : Option (List String)
deriving DecidableEq, Repr

/-- The pipeline engine's output variants relevant to `process`
(the `Input` enum of the runtime): a string or a JSON value. -/
inductive Output where
  | str (s : String)
  | json (j : Json)

/-- One collapsed backend interaction as `process` performs it:
`bundle.create(config)` followed by `pipeline.forward(text)` and one
`stream.next()`. `createErr` is a failed creation, `runErr` a stream
item carrying an error, `empty` a stream that finished with no output,
and `ok` the single consumed output. -/
inductive BackendResult where
  | createErr
  | runErr
  | empty
  | ok (o : Output)

/-- A backend adapter: what the bundle does for a given configuration
and input text. The bundle is an external collaborator, so it is a
parameter of the embedding. -/
def Backend : Type := SuggestConfig → String → BackendResult

/-- HTTP responses distinguished by the handlers: 400, 500, the JSON
canonical response, an HTML page, or a bare status-only response (the
health check's body). -/
inductive HttpResponse where
  | badRequest
  | internalServerError
  | okJson (r : GramcheckResponse)
  | okHtml (page : String)
  | statusOnly (code : Nat)
deriving DecidableEq, Repr

/-- The status code of a response. -/
def statusOf : HttpResponse → Nat
  | .badRequest => 400
  | .internalServerError => 500
  | .okJson _ => 200
  | .okHtml _ => 200
  | .statusOnly code => code

/-- The tail of `process` after the backend call (src/main.rs lines
147-213): stream errors and non-array JSON outputs become 500; an
array is normalized entry by entry into the canonical response. -/
def handleOutput (res : BackendResult) (text : String) : HttpResponse :=
  match res with
  | .createErr => .internalServerError
  | .runErr => .internalServerError
  | .empty => .internalServerError
  | .ok (.str _) => .internalServerError
  | .ok (.json j) =>
    match j with
    | .arr xs => .okJson { text := text, errs := decodeErrs xs }
    | _ => .internalServerError

/-- The `process` function (src/main.rs lines 85-214): trim the text,
select the encoding (400 on an unsupported value, before any backend
interaction), resolve the locales, build the suggest configuration,
run the backend and normalize its output. -/
def process (backend : Backend) (lang : Option String) (header : Option String)
    (body : ProcessInput) (query : ProcessQuery) : HttpResponse :=
  let text := strTrim body.text
  match encodingOf query.encoding with
  | none => .badRequest
  | some is_utf16 =>
    let locales := resolveLocales header lang
    let suggest_config : SuggestConfig :=
      { locales := locales, utf16 := is_utf16, ignore := ignoreField body }
    handleOutput (backend suggest_config text) text

/-- Modelled from the spec: the file `../index.html` embedded at build
time by `include_str!` is not under src/; only its role as the static
HTML body served on GET matters here, so it is an unspecified constant
string. -/
def PAGE : String := "%LANG%"

/-- The `process_get` handler (src/main.rs lines 221-224): serve the
static page with `%LANG%` replaced by the default language or
"unknown". -/
def process_get (lang : Option String) : HttpResponse :=
  .okHtml (PAGE.replace "%LANG%" (lang.getD "unknown"))

/-- The `process_post` handler (src/main.rs lines 226-235): delegate to
`process`. -/
def process_post (backend : Backend) (lang : Option String) (header : Option String)
    (body : ProcessInput) (query : ProcessQuery) : HttpResponse :=
  process backend lang header body query

/-- The `health_check` handler (src/main.rs lines 237-259): run
`process` with empty text, no ignore lists and no encoding parameter,
and return only the status code. -/
def health_check (backend : Backend) (lang : Option String)
    (header : Option String) : HttpResponse :=
  let body : ProcessInput := { text := "", ignore := none, ignore_tags := none }
  let query : ProcessQuery := { encoding := none }
  .statusOnly (statusOf (process backend lang header body query))

/-- HTTP methods routed on the root path. -/
inductive Method where
  | get
  | post
deriving DecidableEq, Repr

/-- The root-path route (src/main.rs line 302):
`post(process_post).get(process_get)`. -/
def rootRoute (m : Method) (backend : Backend) (lang : Option String)
    (header : Option String) (body : ProcessInput) (query : ProcessQuery) :
    HttpResponse :=
  match m with
  | .post => process_post backend lang header body query
  | .get => process_get lang

/-! ## Concrete payloads and backend stubs used in closed statements -/

/-- A backend stub that always produces an empty JSON array. -/
def emptyBackend : Backend := fun _ _ => .ok (.json (.arr []))

/-- A fully well-formed backend entry in the shape `process` decodes. -/
def goodEntry : Json :=
  .obj [("form", .str "foo"), ("beg", .num (.posInt 0)), ("end", .num (.posInt 3)),
        ("err", .str "typo"), ("msg", .arr [.str "Title", .str "desc"]),
        ("rep", .arr [.str "bar", .str "baz"])]

/-- What `goodEntry` decodes to. -/
def goodEntryDecoded : GramcheckErrResponse :=
  { error_text := "foo", start_index := 0, end_index := 3, error_code := "typo",
    description := "desc", suggestions := ["bar", "baz"], title := "Title" }

/-- A per-error entry in the positional (array) shape of the spec's
scenario: `["foo",0,3,"typo","desc",["bar","baz"],"Title"]`. -/
def positionalEntry : Json :=
  .arr [.str "foo", .num (.posInt 0), .num (.posInt 3), .str "typo", .str "desc",
        .arr [.str "bar", .str "baz"], .str "Title"]

/-- The spec scenario's envelope payload
`{"errs":[["foo",0,3,"typo","desc",["bar","baz"],"Title"]]}`. -/
def envelopePayload : Json := .obj [("errs", .arr [positionalEntry])]

/-- A backend stub that produces the envelope payload. -/
def envelopeBackend : Backend := fun _ _ => .ok (.json envelopePayload)

/-- An otherwise well-formed entry whose offsets are out of order:
`beg = 5`, `end = 2`. -/
def badOffsetsEntry : Json :=
  .obj [("form", .str "x"), ("beg", .num (.posInt 5)), ("end", .num (.posInt 2)),
        ("err", .str "e"), ("msg", .arr [.str "t"]), ("rep", .arr [])]

/-- A backend stub that produces an array holding `badOffsetsEntry`. -/
def badOffsetsBackend : Backend := fun _ _ => .ok (.json (.arr [badOffsetsEntry]))

/-- A well-formed entry template with the given `beg` and `end` JSON
values, for offset-representation checks. -/
def entryWithOffsets (beg end_ : Json) : Json :=
  .obj [("form", .str "x"), ("beg", beg), ("end", end_),
        ("err", .str "e"), ("msg", .arr [.str "t"]), ("rep", .arr [])]

/-! ## Theorems -/

/-- C9: the locale-resolution logic inlined in the submit-text handler
and the one inlined in the preferences handler compute the same
LocaleList for every Accept-Language header and default language. -/
theorem claim_C9_locale_resolution_equiv (header lang : Option String) :
    preferencesLocales header lang = resolveLocales header lang := rfl

/-- C1 counterexample: a GET request on the root path with an invalid
encoding parameter is served the static HTML page with a 200 status,
not the orchestration's HTTP 400, while the POST method does return
400 — so GET does not perform the submit-text orchestration. -/
theorem claim_C1_counterexample :
    statusOf (rootRoute .get emptyBackend none none
      { text := "hi", ignore := none, ignore_tags := none }
      { encoding := some "latin1" }) = 200
    ∧ rootRoute .get emptyBackend none none
        { text := "hi", ignore := none, ignore_tags := none }
        { encoding := some "latin1" } ≠ .badRequest
    ∧ rootRoute .post emptyBackend none none
        { text := "hi", ignore := none, ignore_tags := none }
        { encoding := some "latin1" } = .badRequest := by
  refine ⟨rfl, ?_, by decide⟩
  simp [rootRoute, process_get]

/-- C1 (amended): only the POST method on the root path performs the
full submit-text orchestration; the GET method always returns the
static HTML page (status 200) with the language placeholder replaced,
regardless of body, query and headers. -/
theorem claim_C1_root_route (backend : Backend) (lang header : Option String)
    (body : ProcessInput) (query : ProcessQuery) :
    rootRoute .post backend lang header body query =
      process backend lang header body query
    ∧ rootRoute .get backend lang header body query =
        .okHtml (PAGE.replace "%LANG%" (lang.getD "unknown"))
    ∧ statusOf (rootRoute .get backend lang header body query) = 200 :=
  ⟨rfl, rfl, rfl⟩

/-- C5: an absent encoding parameter or the value "utf-16" proceeds to
the backend with the utf-16 flag, the value "utf-8" proceeds with the
utf-8 flag, and any other value yields HTTP 400 independently of the
backend — the pipeline is never created for such a request. -/
theorem claim_C5_encoding (backend : Backend) (lang header : Option String)
    (body : ProcessInput) :
    (∀ q : ProcessQuery, q.encoding = none ∨ q.encoding = some "utf-16" →
      process backend lang header body q =
        handleOutput
          (backend { locales := resolveLocales header lang, utf16 := true,
                     ignore := ignoreField body } (strTrim body.text))
          (strTrim body.text))
    ∧ (∀ q : ProcessQuery, q.encoding = some "utf-8" →
      process backend lang header body q =
        handleOutput
          (backend { locales := resolveLocales header lang, utf16 := false,
                     ignore := ignoreField body } (strTrim body.text))
          (strTrim body.text))
    ∧ (∀ enc : String, enc ≠ "utf-16" → enc ≠ "utf-8" →
        ∀ b2 : Backend,
          process b2 lang header body { encoding := some enc } = .badRequest) := by
  refine ⟨?_, ?_, ?_⟩
  · rintro q (hq | hq) <;> simp [process, encodingOf, hq]
  · intro q hq
    simp [process, encodingOf, hq]
  · intro enc h16 h8 b2
    simp [process, encodingOf, h16, h8]

/-- C5 witness: with the encoding parameter "latin1", the response is
HTTP 400 for a concrete request. -/
theorem claim_C5_encoding_witness :
    process emptyBackend none none
      { text := "hi", ignore := none, ignore_tags := none }
      { encoding := some "latin1" } = .badRequest :=
  (claim_C5_encoding emptyBackend none none
    { text := "hi", ignore := none, ignore_tags := none }).2.2
    "latin1" (by decide) (by decide) emptyBackend

/-- C8: the `ignore` field is preferred over the deprecated
`ignore_tags` alias, whichever is present is used, an empty chosen list
contributes no ignore constraint, and the configuration handed to the
backend carries exactly this constraint. -/
theorem claim_C8_ignore (body : ProcessInput) :
    (∀ l, body.ignore = some l → l.isEmpty = false → ignoreField body = some l)
    ∧ (∀ l, body.ignore = none → body.ignore_tags = some l → l.isEmpty = false →
        ignoreField body = some l)
    ∧ (∀ l, body.ignore.or body.ignore_tags = some l → l.isEmpty = true →
        ignoreField body = none)
    ∧ (body.ignore = none → body.ignore_tags = none → ignoreField body = none)
    ∧ (∀ (backend : Backend) (lang header : Option String) (q : ProcessQuery)
        (b : Bool), encodingOf q.encoding = some b →
        process backend lang header body q =
          handleOutput
            (backend { locales := resolveLocales header lang, utf16 := b,
                       ignore := ignoreField body } (strTrim body.text))
            (strTrim body.text)) := by
  refine ⟨?_, ?_, ?_, ?_, ?_⟩
  · intro l hl hne
    simp [ignoreField, hl, hne]
  · intro l hi ht hne
    simp [ignoreField, hi, ht, hne]
  · intro l hor he
    simp [ignoreField, hor, he]
  · intro hi ht
    simp [ignoreField, hi, ht]
  · intro backend lang header q b hb
    simp [process, hb]

/-- C8 witness: a body carrying both a non-empty `ignore` list and an
`ignore_tags` list resolves its constraint to the `ignore` list. -/
theorem claim_C8_ignore_witness :
    ignoreField { text := "hi", ignore := some ["a"], ignore_tags := some ["b"] } =
      some ["a"] :=
  (claim_C8_ignore
    { text := "hi", ignore := some ["a"], ignore_tags := some ["b"] }).1
    ["a"] rfl rfl

/-- C3 counterexample: the Accept-Language value "en, en" resolves to
the list ["en", "en"], which has a duplicate; and with the default
language "en" configured, "en" appears twice, not exactly once. -/
theorem claim_C3_counterexample :
    resolveLocales (some "en, en") none = ["en", "en"]
    ∧ ¬ (resolveLocales (some "en, en") none).Nodup
    ∧ (resolveLocales (some "en, en") (some "en")).count "en" = 2 := by
  decide

/-- Appending an element to a duplicate-free list only when it is not
already contained keeps the list duplicate-free and makes the element
occur exactly once, at the end when it was absent. -/
theorem nodup_append_default (L : List String) (lg : String) (h : L.Nodup) :
    (if L.contains lg then L else L ++ [lg]).Nodup
    ∧ (if L.contains lg then L else L ++ [lg]).count lg = 1
    ∧ (lg ∉ L → (if L.contains lg then L else L ++ [lg]) = L ++ [lg]) := by
  by_cases hc : lg ∈ L
  · simp [hc, h, List.count_eq_one_of_mem h hc]
  · simp [hc, List.nodup_append, h, List.count_append,
      List.count_eq_zero_of_not_mem hc]

/-- C3 (amended): the resolution step introduces no duplicates of its
own — whenever the header-derived locale list is duplicate-free, the
resolved list is duplicate-free and a configured default language
appears exactly once, at the end when it was not already present; but
no deduplication is performed, so a header repeating a locale yields a
list with duplicates. -/
theorem claim_C3_locale_list (header lang : Option String)
    (h : (resolveLocales header none).Nodup) :
    (resolveLocales header lang).Nodup
    ∧ ∀ lg, lang = some lg →
        (resolveLocales header lang).count lg = 1
        ∧ (lg ∉ resolveLocales header none →
            resolveLocales header lang = resolveLocales header none ++ [lg]) := by
  cases lang with
  | none => exact ⟨h, by simp⟩
  | some lg =>
    have heq : resolveLocales header (some lg) =
        if (resolveLocales header none).contains lg
        then resolveLocales header none
        else resolveLocales header none ++ [lg] := rfl
    obtain ⟨h1, h2, h3⟩ := nodup_append_default (resolveLocales header none) lg h
    rw [heq]
    exact ⟨h1, fun lg2 e => by cases e; exact ⟨h2, h3⟩⟩

/-- C3 witness: for the header "en, fr" and default language "se", the
resolved list is duplicate-free and carries "se" exactly once. -/
theorem claim_C3_locale_list_witness :
    (resolveLocales (some "en, fr") (some "se")).Nodup
    ∧ (resolveLocales (some "en, fr") (some "se")).count "se" = 1 :=
  ⟨(claim_C3_locale_list (some "en, fr") (some "se") (by decide)).1,
   ((claim_C3_locale_list (some "en, fr") (some "se") (by decide)).2 "se" rfl).1⟩

/-- C4 counterexample: an entry with `beg = 5` and `end = 2` is not
excluded — it decodes to a canonical error with `start_index = 5 >
end_index = 2`, and that error appears in the response. -/
theorem claim_C4_counterexample :
    decodeEntry badOffsetsEntry =
      some { error_text := "x", start_index := 5, end_index := 2, error_code := "e",
             description := "", suggestions := [], title := "t" }
    ∧ ¬ (5 ≤ 2)
    ∧ process badOffsetsBackend none none
        { text := "hi", ignore := none, ignore_tags := none } { encoding := none } =
      .okJson
        { text := "hi",
          errs := [{ error_text := "x", start_index := 5, end_index := 2,
                     error_code := "e", description := "", suggestions := [],
                     title := "t" }] } := by
  decide

/-- C4 (amended): entries are excluded only for missing or ill-typed
required fields — every canonical error in the output arises from some
decodable entry of the input payload (output set is a subset of the
decodable entries), but no `start_index ≤ end_index` check is
performed, so out-of-order offsets pass through. -/
theorem claim_C4_output_subset (xs : List Json) (e : GramcheckErrResponse)
    (h : e ∈ decodeErrs xs) :
    ∃ j, j ∈ xs ∧ decodeEntry j = some e := by
  simpa [decodeErrs, List.mem_filterMap] using h

/-- C4 witness: the decoded error of a concrete well-formed payload
traces back to its entry. -/
theorem claim_C4_output_subset_witness :
    ∃ j, j ∈ [goodEntry] ∧ decodeEntry j = some goodEntryDecoded :=
  claim_C4_output_subset [goodEntry] goodEntryDecoded (by decide)

/-- C2 counterexample: the spec-scenario payload
`{"errs":[["foo",0,3,"typo","desc",["bar","baz"],"Title"]]}` does not
decode to one canonical error — as a backend output it makes the
response HTTP 500 (the top level is an object, not an array), and the
positional entry itself decodes to nothing. -/
theorem claim_C2_counterexample :
    process envelopeBackend none none
      { text := "foo", ignore := none, ignore_tags := none } { encoding := none } =
      .internalServerError
    ∧ decodeErrs [positionalEntry] = [] := by
  decide

/-- C2 (amended): the normalizer accepts only a top-level JSON array of
per-error objects with named keys — an envelope object payload yields
HTTP 500 whatever its fields hold, and a per-error entry in the
positional array shape never decodes to a canonical error. -/
theorem claim_C2_payload_shape (fields : List (String × Json)) (ys : List Json)
    (text : String) :
    handleOutput (.ok (.json (.obj fields))) text = .internalServerError
    ∧ decodeEntry (.arr ys) = none :=
  ⟨rfl, by simp [decodeEntry, Json.get]⟩

/-- C6: for an array payload, an entry that fails to decode is dropped
without failing the overall response and the remaining entries on both
sides of it still appear; and inside any successfully decoded entry the
suggestions are exactly the string elements of its `rep` array, so
non-string elements are dropped individually. -/
theorem claim_C6_tolerant_decoding (xs ys : List Json) (bad : Json)
    (hbad : decodeEntry bad = none) (text : String) :
    handleOutput (.ok (.json (.arr (xs ++ bad :: ys)))) text =
      .okJson { text := text, errs := decodeErrs xs ++ decodeErrs ys }
    ∧ ∀ j e, decodeEntry j = some e →
        ∃ repArr, (j.get "rep").bind Json.asArray = some repArr
          ∧ e.suggestions = repArr.filterMap Json.asStr := by
  constructor
  · simp [handleOutput, decodeErrs, List.filterMap_append, List.filterMap_cons, hbad]
  · intro j e h
    unfold decodeEntry at h
    split at h
    · rename_i form beg end_ err msg repArr heq1 heq2 heq3 heq4 heq5 heq6
      split at h
      · rename_i title heq7
        simp only [Option.some.injEq] at h
        subst h
        exact ⟨repArr, heq6, rfl⟩
      · exact Option.noConfusion h
    · exact Option.noConfusion h

/-- C6 witness: a payload holding a valid entry, an undecodable entry
(an empty array) and another valid entry still produces a successful
response carrying both valid entries. -/
theorem claim_C6_tolerant_decoding_witness :
    handleOutput (.ok (.json (.arr ([goodEntry] ++ Json.arr [] :: [badOffsetsEntry]))))
      "t" =
      .okJson { text := "t", errs := decodeErrs [goodEntry] ++ decodeErrs [badOffsetsEntry] } :=
  (claim_C6_tolerant_decoding [goodEntry] [badOffsetsEntry] (.arr []) (by decide) "t").1

/-- C7: when the backend answers an empty array on empty input (the
behaviour the spec requires of the engine), submitting text that trims
to empty with default encoding yields the canonical response with empty
text and no errors and a success status; and the health check runs
`process` on empty text with default encoding and returns only the
resulting status code, here 200. -/
theorem claim_C7_empty_text (backend : Backend) (lang header : Option String)
    (text : String) (htrim : strTrim text = "")
    (hback : backend
      { locales := resolveLocales header lang, utf16 := true, ignore := none } "" =
      .ok (.json (.arr []))) :
    process backend lang header
      { text := text, ignore := none, ignore_tags := none } { encoding := none } =
      .okJson { text := "", errs := [] }
    ∧ health_check backend lang header =
        .statusOnly (statusOf (process backend lang header
          { text := "", ignore := none, ignore_tags := none } { encoding := none }))
    ∧ health_check backend lang header = .statusOnly 200 := by
  have hstr : strTrim "" = "" := by decide
  have hp : process backend lang header
      { text := text, ignore := none, ignore_tags := none } { encoding := none } =
      .okJson { text := "", errs := [] } := by
    simp [process, encodingOf, ignoreField, htrim, hback, handleOutput, decodeErrs]
  have hp0 : process backend lang header
      { text := "", ignore := none, ignore_tags := none } { encoding := none } =
      .okJson { text := "", errs := [] } := by
    simp [process, encodingOf, ignoreField, hstr, hback, handleOutput, decodeErrs]
  refine ⟨hp, rfl, ?_⟩
  simp [health_check, hp0, statusOf]

/-- C7 witness: with the stub backend that always answers an empty
array, the empty-text request succeeds with the empty canonical
response and the health check reports 200. -/
theorem claim_C7_empty_text_witness :
    process emptyBackend none none
      { text := "", ignore := none, ignore_tags := none } { encoding := none } =
      .okJson { text := "", errs := [] }
    ∧ health_check emptyBackend none none = .statusOnly 200 :=
  ⟨(claim_C7_empty_text emptyBackend none none "" (by decide) rfl).1,
   (claim_C7_empty_text emptyBackend none none "" (by decide) rfl).2.2⟩

/-- C10: a `beg` value that is a negative or floating-point JSON number
makes the entry be dropped (as does such an `end` value), while a
non-negative integer `beg` that is a valid u64 is kept with the offset
reduced modulo 2^32 — in particular a value at least 2^32 is silently
changed by the truncation. -/
theorem claim_C10_offset_truncation (n m : Nat) (k : Int) (_hk : k < 0)
    (_hn : n < 2 ^ 64) (hbig : 2 ^ 32 ≤ n) :
    decodeEntry (entryWithOffsets (.num (.negInt k)) (.num (.posInt m))) = none
    ∧ decodeEntry (entryWithOffsets (.num .float) (.num (.posInt m))) = none
    ∧ decodeEntry (entryWithOffsets (.num (.posInt m)) (.num .float)) = none
    ∧ decodeEntry (entryWithOffsets (.num (.posInt n)) (.num (.posInt m))) =
        some { error_text := "x", start_index := n % 2 ^ 32, end_index := m % 2 ^ 32,
               error_code := "e", description := "", suggestions := [], title := "t" }
    ∧ n % 2 ^ 32 < n := by
  refine ⟨?_, ?_, ?_, ?_, ?_⟩
  · simp [decodeEntry, entryWithOffsets, Json.get, Json.asStr, Json.asU64,
      Json.asArray, List.find?]
  · simp [decodeEntry, entryWithOffsets, Json.get, Json.asStr, Json.asU64,
      Json.asArray, List.find?]
  · simp [decodeEntry, entryWithOffsets, Json.get, Json.asStr, Json.asU64,
      Json.asArray, List.find?]
  · simp [decodeEntry, entryWithOffsets, Json.get, Json.asStr, Json.asU64,
      Json.asArray, List.find?]
  · exact lt_of_lt_of_le (Nat.mod_lt n (by norm_num)) hbig

/-- C10 witness: with `beg = 2^32 + 5` and `end = 3` the entry is kept
and its start offset is truncated to a smaller value. -/
theorem claim_C10_offset_truncation_witness :
    decodeEntry (entryWithOffsets (.num (.posInt (2 ^ 32 + 5))) (.num (.posInt 3))) =
      some { error_text := "x", start_index := (2 ^ 32 + 5) % 2 ^ 32,
             end_index := 3 % 2 ^ 32, error_code := "e", description := "",
             suggestions := [], title := "t" }
    ∧ (2 ^ 32 + 5) % 2 ^ 32 < 2 ^ 32 + 5 :=
  ⟨(claim_C10_offset_truncation (2 ^ 32 + 5) 3 (-1) (by decide) (by decide)
      (by decide)).2.2.2.1,
   (claim_C10_offset_truncation (2 ^ 32 + 5) 3 (-1) (by decide) (by decide)
      (by decide)).2.2.2.2⟩

end DivvunWorker
